import Mathlib

/-!
# JobMate-AI backend: a shallow embedding of the chat / ML-glue layer

This file embeds, in Lean 4, the parts of the JobMate-AI job-portal backend
that its design notes make claims about: the HMAC-SHA256 request signing and
the retry wrapper around the outbound ML-service HTTP call
(`server/controllers/chatController.js` and its variant revisions), the chat
route handlers (`sendMessage`, `explainJobMatch`, `getCareerPath`,
`deleteConversation`, ...), the MLAnalysis TTL cache queries
(`server/models/MLAnalysis.js`), the user-auth middleware
(`server/middleware/authMiddleware.js`), the chat router
(`server/routes/chatRoutes.js`), and `applyForJob`
(`server/controllers/userController.js`).

Mongo documents become Lean structures; collections become lists; `findOne`
becomes `List.find?` on the embedded query predicate; `create` appends a
document built exactly from the fields passed in the source, with schema
defaults filled in from the model files; handler bodies become total Lean
functions from the database state and the outcomes of the awaited effects
(ML call result, thrown exceptions) to a response value and a new database
state.  JavaScript timestamps are `Nat` milliseconds.  `crypto.createHmac`
("sha256") is implemented concretely (SHA-256 over byte lists, bytes as
`Nat < 256`, 32-bit words as `Nat` reduced `% 2^32`).
-/

namespace JobMate

/-! ## Bytes, 32-bit words, SHA-256, HMAC

Concrete model of Node's
`crypto.createHmac("sha256", secret).update(timestamp).digest("hex")`.
Bytes are `Nat` values below 256; 32-bit words are `Nat` values reduced
modulo `2^32` after every arithmetic step.
-/

/-- Reduce to a 32-bit word. -/
def w32 (x : Nat) : Nat := x % 4294967296

/-- Right-rotation of a 32-bit word by `n` places. -/
def rotr32 (n x : Nat) : Nat := w32 ((x >>> n) ||| (x <<< (32 - n)))

/-- Bitwise complement of a 32-bit word. -/
def not32 (x : Nat) : Nat := x ^^^ 4294967295

/-- SHA-256 `Ch` function. -/
def shaCh (x y z : Nat) : Nat := (x &&& y) ^^^ (not32 x &&& z)

/-- SHA-256 `Maj` function. -/
def shaMaj (x y z : Nat) : Nat := ((x &&& y) ^^^ (x &&& z)) ^^^ (y &&& z)

/-- SHA-256 big sigma 0. -/
def bigSigma0 (x : Nat) : Nat := (rotr32 2 x ^^^ rotr32 13 x) ^^^ rotr32 22 x

/-- SHA-256 big sigma 1. -/
def bigSigma1 (x : Nat) : Nat := (rotr32 6 x ^^^ rotr32 11 x) ^^^ rotr32 25 x

/-- SHA-256 small sigma 0. -/
def smallSigma0 (x : Nat) : Nat := (rotr32 7 x ^^^ rotr32 18 x) ^^^ (x >>> 3)

/-- SHA-256 small sigma 1. -/
def smallSigma1 (x : Nat) : Nat := (rotr32 17 x ^^^ rotr32 19 x) ^^^ (x >>> 10)

/-- The 64 SHA-256 round constants (decimal). -/
def sha256K : List Nat := [
  1116352408, 1899447441, 3049323471, 3921009573, 961987163, 1508970993,
  2453635748, 2870763221, 3624381080, 310598401, 607225278, 1426881987,
  1925078388, 2162078206, 2614888103, 3248222580, 3835390401, 4022224774,
  264347078, 604807628, 770255983, 1249150122, 1555081692, 1996064986,
  2554220882, 2821834349, 2952996808, 3210313671, 3336571891, 3584528711,
  113926993, 338241895, 666307205, 773529912, 1294757372, 1396182291,
  1695183700, 1986661051, 2177026350, 2456956037, 2730485921, 2820302411,
  3259730800, 3345764771, 3516065817, 3600352804, 4094571909, 275423344,
  430227734, 506948616, 659060556, 883997877, 958139571, 1322822218,
  1537002063, 1747873779, 1955562222, 2024104815, 2227730452, 2361852424,
  2428436474, 2756734187, 3204031479, 3329325298]

/-- SHA-256 working state: eight 32-bit words. -/
structure Hash8 where
  a : Nat
  b : Nat
  c : Nat
  d : Nat
  e : Nat
  f : Nat
  g : Nat
  h : Nat
deriving Repr, DecidableEq

/-- SHA-256 initial hash value (decimal). -/
def sha256InitH : Hash8 :=
  ⟨1779033703, 3144134277, 1013904242, 2773480762,
   1359893119, 2600822924, 528734635, 1541459225⟩

/-- Big-endian 8-byte encoding of a length in bits. -/
def be64 (n : Nat) : List Nat :=
  [(n >>> 56) % 256, (n >>> 48) % 256, (n >>> 40) % 256, (n >>> 32) % 256,
   (n >>> 24) % 256, (n >>> 16) % 256, (n >>> 8) % 256, n % 256]

/-- Big-endian 4-byte encoding of a 32-bit word. -/
def be32 (n : Nat) : List Nat :=
  [(n >>> 24) % 256, (n >>> 16) % 256, (n >>> 8) % 256, n % 256]

/-- SHA-256 padding: append `0x80`, zeros, and the 64-bit bit length,
reaching a multiple of 64 bytes. -/
def sha256Pad (msg : List Nat) : List Nat :=
  let L := msg.length
  let zeros := (64 - ((L + 9) % 64)) % 64
  msg ++ [128] ++ List.replicate zeros 0 ++ be64 (8 * L)

/-- The `i`-th big-endian 32-bit word of a 64-byte block. -/
def word32At (b : List Nat) (i : Nat) : Nat :=
  (((b.getD (4*i) 0) <<< 24) ||| ((b.getD (4*i+1) 0) <<< 16)) |||
  (((b.getD (4*i+2) 0) <<< 8) ||| (b.getD (4*i+3) 0))

/-- The 16 message words of a 64-byte block. -/
def blockWords (b : List Nat) : List Nat := (List.range 16).map (word32At b)

/-- Extend a message schedule by `n` further words. -/
def scheduleExtend (W : List Nat) : Nat → List Nat
  | 0 => W
  | n + 1 =>
    let W' := scheduleExtend W n
    let t := W'.length
    W' ++ [w32 (smallSigma1 (W'.getD (t-2) 0) + W'.getD (t-7) 0 +
                smallSigma0 (W'.getD (t-15) 0) + W'.getD (t-16) 0)]

/-- Full 64-word SHA-256 message schedule of one block. -/
def sha256Schedule (block : List Nat) : List Nat :=
  scheduleExtend (blockWords block) 48

/-- One SHA-256 compression round. -/
def sha256Round (s : Hash8) (kw : Nat × Nat) : Hash8 :=
  let T1 := w32 (s.h + bigSigma1 s.e + shaCh s.e s.f s.g + kw.1 + kw.2)
  let T2 := w32 (bigSigma0 s.a + shaMaj s.a s.b s.c)
  ⟨w32 (T1 + T2), s.a, s.b, s.c, w32 (s.d + T1), s.e, s.f, s.g⟩

/-- SHA-256 compression of one 64-byte block into the running hash. -/
def sha256Compress (h0 : Hash8) (block : List Nat) : Hash8 :=
  let s := ((sha256K.zip (sha256Schedule block)).foldl sha256Round h0)
  ⟨w32 (h0.a + s.a), w32 (h0.b + s.b), w32 (h0.c + s.c), w32 (h0.d + s.d),
   w32 (h0.e + s.e), w32 (h0.f + s.f), w32 (h0.g + s.g), w32 (h0.h + s.h)⟩

/-- Split a byte list into 64-byte chunks (with an explicit fuel for
structural recursion). -/
def chunks64Aux : Nat → List Nat → List (List Nat)
  | 0, _ => []
  | _, [] => []
  | fuel + 1, l => l.take 64 :: chunks64Aux fuel (l.drop 64)

/-- Split a byte list into 64-byte chunks. -/
def chunks64 (l : List Nat) : List (List Nat) := chunks64Aux l.length l

/-- SHA-256 of a byte list, as a 32-byte list. -/
def sha256 (msg : List Nat) : List Nat :=
  let hh := (chunks64 (sha256Pad msg)).foldl sha256Compress sha256InitH
  be32 hh.a ++ be32 hh.b ++ be32 hh.c ++ be32 hh.d ++
  be32 hh.e ++ be32 hh.f ++ be32 hh.g ++ be32 hh.h

/-- HMAC key is hashed when longer than the 64-byte block, then padded
with zeros to 64 bytes. -/
def hmacKeyBlock (key : List Nat) : List Nat :=
  let k := if 64 < key.length then sha256 key else key
  k ++ List.replicate (64 - k.length) 0

/-- HMAC-SHA256 over byte lists. -/
def hmacSha256 (key msg : List Nat) : List Nat :=
  let k := hmacKeyBlock key
  sha256 ((k.map (· ^^^ 0x5c)) ++ sha256 ((k.map (· ^^^ 0x36)) ++ msg))

/-- Lowercase hex digits. -/
def hexDigits : List Char := "0123456789abcdef".data

/-- Two-character lowercase hex encoding of one byte. -/
def byteToHex (b : Nat) : List Char :=
  [hexDigits.getD (b / 16 % 16) '0', hexDigits.getD (b % 16) '0']

/-- Lowercase hex string of a byte list (Node's `.digest("hex")`). -/
def bytesToHex (bs : List Nat) : String :=
  ⟨bs.foldr (fun b acc => byteToHex b ++ acc) []⟩

/-- UTF-8 encoding of one character as `Nat` bytes. -/
def utf8EncodeCharNat (c : Char) : List Nat :=
  let n := c.toNat
  if n < 0x80 then [n]
  else if n < 0x800 then
    [0xC0 ||| (n >>> 6), 0x80 ||| (n &&& 0x3F)]
  else if n < 0x10000 then
    [0xE0 ||| (n >>> 12), 0x80 ||| ((n >>> 6) &&& 0x3F), 0x80 ||| (n &&& 0x3F)]
  else
    [0xF0 ||| (n >>> 18), 0x80 ||| ((n >>> 12) &&& 0x3F),
     0x80 ||| ((n >>> 6) &&& 0x3F), 0x80 ||| (n &&& 0x3F)]

/-- UTF-8 bytes of a string (what Node's `hmac.update(string)` hashes). -/
def utf8Bytes (s : String) : List Nat :=
  s.data.foldr (fun c acc => utf8EncodeCharNat c ++ acc) []

/-! ## ML-service request signing

Embedding of `generateSignature` / `callMLService` header assembly
(`server/controllers/chatController.js` and the variant revisions of the
same controller), and of the `wakeML` health ping of the retry revision.
`Date.now()` is the `nowMs : Nat` input; `Date.now().toString()` is
`toString nowMs`.
-/

/-- Fallback shared secret of `server/controllers/chatController.js`
(`process.env.SHARED_SECRET || "your-shared-secret-between-services"`). -/
def defaultSharedSecret : String := "your-shared-secret-between-services"

/-- Fallback ML base URL (`process.env.ML_SERVICE_URL || "http://localhost:8000"`). -/
def mlServiceDefaultUrl : String := "http://localhost:8000"

/-- `generateSignature`: HMAC-SHA256 of the millisecond timestamp string,
keyed with the shared secret, hex encoded; returns (signature, timestamp). -/
def generateSignature (secret : String) (nowMs : Nat) : String × String :=
  let timestamp := toString nowMs
  (bytesToHex (hmacSha256 (utf8Bytes secret) (utf8Bytes timestamp)), timestamp)

/-- An outbound HTTP request (method, URL, headers). -/
structure HttpRequest where
  method : String
  url : String
  headers : List (String × String)
deriving Repr, DecidableEq

/-- The POST issued by `callMLService`: base URL ++ endpoint, with
`Content-Type`, `X-Signature` and `X-Timestamp` headers taken from
`generateSignature`. -/
def callMLServiceRequest (baseUrl secret : String) (nowMs : Nat) (endpoint : String) :
    HttpRequest :=
  { method := "POST"
    url := baseUrl ++ endpoint
    headers := [("Content-Type", "application/json"),
                ("X-Signature", (generateSignature secret nowMs).1),
                ("X-Timestamp", (generateSignature secret nowMs).2)] }

/-- The GET issued by `wakeML` (retry revision of the controller):
`axios.get(ML_SERVICE_URL + "/health", { timeout: 8000 })` — no headers. -/
def wakeMLRequest (baseUrl : String) : HttpRequest :=
  { method := "GET", url := baseUrl ++ "/health", headers := [] }

/-- The requests the retry revision of `sendMessage` sends to the ML
service: first the `wakeML` health ping, then the signed chat POST. -/
def sendMessageOutboundRequests (baseUrl secret : String) (nowMs : Nat) :
    List HttpRequest :=
  [wakeMLRequest baseUrl, callMLServiceRequest baseUrl secret nowMs "/api/ml/chat"]

/-! ## The retry wrapper

`callMLService(endpoint, payload, retries = 2)` of the retry revision:
try the POST; on failure, if `retries > 0`, wait 2000 ms and recurse with
`retries - 1`; otherwise rethrow.  The run is modelled over the sequence
of attempt outcomes `attemptResult : Nat → MLResult` and returns
(final result, number of attempts made, total delay waited in ms).
-/

/-- Outcome of one HTTP attempt: the response payload or the error message. -/
abbrev MLResult := Except String String

/-- The `retries = 2` default parameter of `callMLService`. -/
def mlRetryDefault : Nat := 2

/-- One run of `callMLService` with a given retry budget, starting at a
given attempt index. -/
def callMLServiceRun (attemptResult : Nat → MLResult) :
    Nat → Nat → MLResult × Nat × Nat
  | retries, attempt =>
    match attemptResult attempt with
    | .ok r => (.ok r, 1, 0)
    | .error e =>
      match retries with
      | 0 => (.error e, 1, 0)
      | r + 1 =>
        let rest := callMLServiceRun attemptResult r (attempt + 1)
        (rest.1, rest.2.1 + 1, rest.2.2 + 2000)

/-- A run of `callMLService` as the controller invokes it
(`callMLService(endpoint, payload)`, so with the default budget). -/
def callMLServiceDefaultRun (attemptResult : Nat → MLResult) : MLResult × Nat × Nat :=
  callMLServiceRun attemptResult mlRetryDefault 0

/-! ## Documents and database state

Mongoose documents as structures, collections as lists.  `_id` values are
`Nat`; a `DB.nextId` counter stands for ObjectId generation.  Schema
defaults are taken from the model files (`ChatConversation.js`,
`ChatMessage.js`, `MLAnalysis.js`).
-/

/-- A `User` document (the fields the embedded handlers read). -/
structure UserDoc where
  id : Nat
  name : String
  headline : Option String
  about : Option String
  resume : Option String
  workStatus : String
  degree : Option String
  institute : Option String
  location : Option String
deriving Repr, DecidableEq

/-- A `Job` document (the fields the embedded handlers read). -/
structure JobDoc where
  id : Nat
  companyId : Nat
  title : String
  description : String
  skillsRequired : List String
  keyResponsibilities : List String
  location : String
  category : String
  level : String
deriving Repr, DecidableEq

/-- A `ChatConversation` document.  `convType` embeds the schema's `type`
field; `contextJobId`/`contextJobTitle` embed the `context` subdocument. -/
structure ConversationDoc where
  id : Nat
  userId : Nat
  title : String
  convType : String
  contextJobId : Option Nat
  contextJobTitle : Option String
  status : String
  lastMessageAt : Nat
  messageCount : Nat
  createdAt : Nat
deriving Repr, DecidableEq

/-- A `ChatMessage` document. `mlData` is kept as an opaque JSON blob. -/
structure MessageDoc where
  id : Nat
  conversationId : Nat
  userId : Nat
  role : String
  content : String
  intent : Option String
  suggestions : Option (List String)
  mlData : Option String
  createdAt : Nat
deriving Repr, DecidableEq

/-- An `MLAnalysis` document.  `results` is the ML response kept as an
opaque JSON blob; `expiresAt` carries the schema default
`Date.now() + 24*60*60*1000` when the creating handler does not set it. -/
structure MLAnalysisDoc where
  userId : Nat
  jobId : Option Nat
  analysisType : String
  inputResumeText : Option String
  inputJobDescription : Option String
  inputJobSkills : Option (List String)
  results : String
  matchScore : Option Nat
  atsScore : Option Nat
  expiresAt : Nat
  createdAt : Nat
deriving Repr, DecidableEq

/-- A `JobApplication` document. -/
structure ApplicationDoc where
  companyId : Nat
  userId : Nat
  jobId : Nat
  date : Nat
deriving Repr, DecidableEq

/-- The backend's MongoDB state. -/
structure DB where
  users : List UserDoc
  jobs : List JobDoc
  conversations : List ConversationDoc
  messages : List MessageDoc
  analyses : List MLAnalysisDoc
  applications : List ApplicationDoc
  nextId : Nat
deriving Repr, DecidableEq

/-- `User.findById`. -/
def DB.findUser (db : DB) (uid : Nat) : Option UserDoc :=
  db.users.find? (fun u => u.id == uid)

/-- `Job.findById`. -/
def DB.findJob (db : DB) (jid : Nat) : Option JobDoc :=
  db.jobs.find? (fun j => j.id == jid)

/-- Update the first element satisfying `p` (a Mongo single-document
update such as `findOneAndUpdate` / `findByIdAndUpdate`). -/
def updateFirst (p : α → Bool) (f : α → α) : List α → List α
  | [] => []
  | x :: xs => if p x then f x :: xs else x :: updateFirst p f xs

/-- A JSON envelope response: HTTP status, the `success` flag, whether a
`data` field is present, and the `message` field if any. -/
structure Resp where
  status : Nat
  success : Bool
  hasData : Bool
  message : Option String
deriving Repr, DecidableEq

/-! ## TTL cache queries over MLAnalysis

The two cache lookups of `server/controllers/chatController.js` and the
TTL configuration of `server/models/MLAnalysis.js`.
-/

/-- The 24-hour default for `expiresAt` in `MLAnalysis.js`
(`Date.now() + 24 * 60 * 60 * 1000`). -/
def mlAnalysisTTLms : Nat := 24 * 60 * 60 * 1000

/-- `expireAfterSeconds` of the TTL index
`mlAnalysisSchema.index({ expiresAt: 1 }, { expireAfterSeconds: 0 })`. -/
def mlAnalysisTTLIndexExpireAfterSeconds : Nat := 0

/-- MongoDB TTL semantics for that index: a document is eligible for
automatic removal once `expiresAt + expireAfterSeconds` has passed. -/
def mlAnalysisTTLEligible (d : MLAnalysisDoc) (now : Nat) : Bool :=
  decide (d.expiresAt + mlAnalysisTTLIndexExpireAfterSeconds * 1000 ≤ now)

/-- The `explainJobMatch` cache query:
`{ userId, jobId, analysisType: "job_match", expiresAt: { $gt: new Date() } }`. -/
def jobMatchCacheMatch (uid jid now : Nat) (d : MLAnalysisDoc) : Bool :=
  d.userId == uid && d.jobId == some jid && d.analysisType == "job_match" &&
  decide (now < d.expiresAt)

/-- The `getCareerPath` cache query:
`{ userId, analysisType: "career_path", expiresAt: { $gt: new Date() } }` —
note: no `jobId` key in the filter. -/
def careerPathCacheMatch (uid now : Nat) (d : MLAnalysisDoc) : Bool :=
  d.userId == uid && d.analysisType == "career_path" && decide (now < d.expiresAt)

/-- `findOne(query).sort({ createdAt: -1 })`: the matching document with
the greatest `createdAt` (first wins ties, matching a stable sort). -/
def pickNewest (l : List MLAnalysisDoc) : Option MLAnalysisDoc :=
  l.foldl (fun acc d =>
    match acc with
    | none => some d
    | some b => if b.createdAt < d.createdAt then some d else some b) none

/-- Run a cache lookup with newest-first ordering. -/
def findNewestAnalysis (db : DB) (p : MLAnalysisDoc → Bool) : Option MLAnalysisDoc :=
  pickNewest (db.analyses.filter p)

/-! ## JavaScript string primitives

Executable models (over `String.data` character lists) of the JS string
methods the handlers use: `trim`, `startsWith`, `split(" ")`.
-/

/-- JS `String.prototype.trim`: strip leading and trailing whitespace. -/
def jsTrim (s : String) : String :=
  ⟨(((s.data.dropWhile Char.isWhitespace).reverse.dropWhile
      Char.isWhitespace).reverse)⟩

/-- JS `String.prototype.startsWith`. -/
def jsStartsWith (s pre : String) : Bool :=
  s.data.take pre.data.length == pre.data

/-- Split a character list on a separator character. -/
def splitOnChar (sep : Char) : List Char → List Char → List (List Char)
  | [], cur => [cur.reverse]
  | c :: cs, cur =>
    if c = sep then cur.reverse :: splitOnChar sep cs []
    else splitOnChar sep cs (c :: cur)

/-- JS `String.prototype.split(" ")`. -/
def jsSplitSpace (s : String) : List String :=
  (splitOnChar ' ' s.data []).map (fun cs => ⟨cs⟩)

/-! ## Chat handlers (`server/controllers/chatController.js`) -/

/-- The `context` object of a chat request body (`context.type`,
`context.jobId`, `context.jobTitle`). -/
structure ChatContext where
  ctype : Option String
  jobId : Option Nat
  jobTitle : Option String
deriving Repr, DecidableEq

/-- `_id`-and-owner conversation query `{ _id: conversationId, userId }`. -/
def convMatchesIdUser (cid uid : Nat) (c : ConversationDoc) : Bool :=
  c.id == cid && c.userId == uid

/-- The guard `!message || !message.trim()` of `sendMessage`: the message
is absent, empty, or whitespace-only. -/
def msgInvalid : Option String → Bool
  | none => true
  | some s => s == "" || jsTrim s == ""

/-- The ML chat payload as `server/controllers/chatController.js` reads
it on success (`mlResponse.data.response` and friends). -/
structure MLChatData where
  response : String
  intent : Option String
  suggestions : Option (List String)
  mlData : Option String
deriving Repr, DecidableEq

/-- Result of a `sendMessage` run: the response envelope, the returned
`conversationId` and message documents, and the new database state. -/
structure SendMessageRes where
  resp : Resp
  conversationId : Option Nat
  userMessage : Option MessageDoc
  assistantMessage : Option MessageDoc
  db : DB
deriving Repr, DecidableEq

/-- `sendMessage` of `server/controllers/chatController.js`: validate the
message, find (`{_id, userId}`, only when an id was sent) or create the
conversation, store the user message, call the ML service, store the
assistant message, bump the conversation.  This revision has no inner
try/catch around the ML call: an ML failure falls to the handler's outer
catch, which answers 500 `success: false`. -/
def sendMessageServer (db : DB) (uid : Nat) (conversationId : Option Nat)
    (message : Option String) (context : ChatContext) (now : Nat)
    (ml : Except String MLChatData) : SendMessageRes :=
  if msgInvalid message then
    { resp := { status := 400, success := false, hasData := false,
                message := some "Message is required" },
      conversationId := none, userMessage := none, assistantMessage := none, db := db }
  else
    let found := match conversationId with
      | some cid => db.conversations.find? (convMatchesIdUser cid uid)
      | none => none
    let convdb : ConversationDoc × DB := match found with
      | some c => (c, db)
      | none =>
        let c : ConversationDoc :=
          { id := db.nextId, userId := uid, title := "New Conversation",
            convType := context.ctype.getD "general",
            contextJobId := context.jobId, contextJobTitle := context.jobTitle,
            status := "active", lastMessageAt := now, messageCount := 0, createdAt := now }
        (c, { db with conversations := db.conversations ++ [c], nextId := db.nextId + 1 })
    let conv := convdb.1
    let db1 := convdb.2
    let userMsg : MessageDoc :=
      { id := db1.nextId, conversationId := conv.id, userId := uid, role := "user",
        content := message.getD "", intent := none, suggestions := none,
        mlData := none, createdAt := now }
    let db2 := { db1 with messages := db1.messages ++ [userMsg], nextId := db1.nextId + 1 }
    match ml with
    | .error _ =>
      { resp := { status := 500, success := false, hasData := false,
                  message := some "Failed to send message" },
        conversationId := none, userMessage := none, assistantMessage := none, db := db2 }
    | .ok d =>
      let assistantMsg : MessageDoc :=
        { id := db2.nextId, conversationId := conv.id, userId := uid, role := "assistant",
          content := d.response, intent := d.intent, suggestions := d.suggestions,
          mlData := d.mlData, createdAt := now }
      let db3 := { db2 with messages := db2.messages ++ [assistantMsg], nextId := db2.nextId + 1 }
      let db4 := { db3 with conversations :=
        (updateFirst (fun c => c.id == conv.id)
          (fun c => { c with lastMessageAt := now, messageCount := c.messageCount + 2 })
          db3.conversations) }
      { resp := { status := 200, success := true, hasData := true, message := none },
        conversationId := some conv.id, userMessage := some userMsg,
        assistantMessage := some assistantMsg, db := db4 }

/-- The static fallback reply of the degrading `sendMessage` revision. -/
def fallbackContent : String := "ML service unavailable. Please try again later."

/-- The `|| "I’m here to help!"` default reply of the degrading
revision (the source file stores the apostrophe in mangled encoding). -/
def defaultGreeting : String := "I\u2019m here to help!"

/-- The ML chat payload as the degrading revision reads it
(`mlResponse?.data?.response`, `mlResponse?.data?.suggestions`). -/
structure MLChatPayload where
  response : Option String
  suggestions : Option (List String)
deriving Repr, DecidableEq

/-- The conversation query of the degrading revision,
`findOne({ _id: conversationId, userId, status: "active" })`; mongoose
drops an `undefined` `_id` from the filter. -/
def convQueryActive (cid : Option Nat) (uid : Nat) (c : ConversationDoc) : Bool :=
  (match cid with
   | some i => c.id == i
   | none => true) &&
  c.userId == uid && c.status == "active"

/-- `sendMessage` of the degrading controller revision (`part_007`):
validate `userId` and the message, find or create the conversation, store
the user message, then call the ML service inside an inner try/catch — on
failure store the static fallback assistant message instead of erroring —
bump the conversation and answer `success: true`. -/
def sendMessageFallback (db : DB) (userId : Option Nat) (conversationId : Option Nat)
    (message : Option String) (context : ChatContext) (now : Nat)
    (ml : Except String MLChatPayload) : SendMessageRes :=
  match userId with
  | none =>
    { resp := { status := 400, success := false, hasData := false,
                message := some "Invalid request" },
      conversationId := none, userMessage := none, assistantMessage := none, db := db }
  | some uid =>
    if msgInvalid message then
      { resp := { status := 400, success := false, hasData := false,
                  message := some "Invalid request" },
        conversationId := none, userMessage := none, assistantMessage := none, db := db }
    else
      let found := db.conversations.find? (convQueryActive conversationId uid)
      let convdb : ConversationDoc × DB := match found with
        | some c => (c, db)
        | none =>
          let c : ConversationDoc :=
            { id := db.nextId, userId := uid, title := "New Conversation",
              convType := "general",
              contextJobId := context.jobId, contextJobTitle := context.jobTitle,
              status := "active", lastMessageAt := now, messageCount := 0, createdAt := now }
          (c, { db with conversations := db.conversations ++ [c], nextId := db.nextId + 1 })
      let conv := convdb.1
      let db1 := convdb.2
      let userMsg : MessageDoc :=
        { id := db1.nextId, conversationId := conv.id, userId := uid, role := "user",
          content := message.getD "", intent := none, suggestions := none,
          mlData := none, createdAt := now }
      let db2 := { db1 with messages := db1.messages ++ [userMsg], nextId := db1.nextId + 1 }
      let assistantMsg : MessageDoc := match ml with
        | .ok d =>
          { id := db2.nextId, conversationId := conv.id, userId := uid, role := "assistant",
            content := d.response.getD defaultGreeting, intent := none,
            suggestions := d.suggestions, mlData := none, createdAt := now }
        | .error _ =>
          { id := db2.nextId, conversationId := conv.id, userId := uid, role := "assistant",
            content := fallbackContent, intent := none, suggestions := none,
            mlData := none, createdAt := now }
      let db3 := { db2 with messages := db2.messages ++ [assistantMsg], nextId := db2.nextId + 1 }
      let db4 := { db3 with conversations :=
        (updateFirst (fun c => c.id == conv.id)
          (fun c => { c with lastMessageAt := now, messageCount := c.messageCount + 2 })
          db3.conversations) }
      { resp := { status := 200, success := true, hasData := true, message := none },
        conversationId := some conv.id, userMessage := some userMsg,
        assistantMessage := some assistantMsg, db := db4 }

/-- `messageCount` of the conversation with a given id (0 when absent);
used to state how `sendMessage` bumps the count. -/
def convMessageCountAt (db : DB) (cid : Nat) : Nat :=
  match db.conversations.find? (fun c => c.id == cid) with
  | some c => c.messageCount
  | none => 0

/-- JavaScript template interpolation of a possibly-undefined string. -/
def jsShow : Option String → String
  | some s => s
  | none => "undefined"

/-- The resume text `explainJobMatch` sends: `user.resume ||` a template
built from profile fields. -/
def mkResumeText (u : UserDoc) : String :=
  match u.resume with
  | some r => r
  | none =>
    "\n      Name: " ++ u.name ++
    "\n      Headline: " ++ jsShow u.headline ++
    "\n      About: " ++ jsShow u.about ++
    "\n      Education: " ++ jsShow u.degree ++ " from " ++ jsShow u.institute ++
    "\n      Work Status: " ++ u.workStatus ++
    "\n      Location: " ++ jsShow u.location ++
    "\n    "

/-- The job description `explainJobMatch` sends. -/
def mkJobDescription (j : JobDoc) : String :=
  "\n      " ++ j.title ++
  "\n      " ++ j.description ++
  "\n      Key Responsibilities: " ++ String.intercalate ", " j.keyResponsibilities ++
  "\n      Location: " ++ j.location ++
  "\n      Category: " ++ j.category ++
  "\n      Level: " ++ j.level ++
  "\n    "

/-- `requiredExperience` wiring: Senior Level 5, Mid Level 3, else 0. -/
def requiredExperience (level : String) : Nat :=
  if level == "Senior Level" then 5 else if level == "Mid Level" then 3 else 0

/-- The ML match payload as `explainJobMatch` reads it on success. -/
structure MLMatchData where
  results : String
  overallMatchScore : Option Nat
  atsScore : Option Nat
  matchedSkills : List String
  missingSkills : List String
  explanation : Option String
deriving Repr, DecidableEq

/-- Result of an `explainJobMatch` run: response envelope, the `cached`
flag of the JSON body, the returned analysis blob, whether the ML service
was called, and the new database state. -/
structure ExplainRes where
  resp : Resp
  cached : Option Bool
  dataBlob : Option String
  mlCalled : Bool
  db : DB
deriving Repr, DecidableEq

/-- `explainJobMatch` of `server/controllers/chatController.js`: 404 when
user or job is missing; answer the freshest cached `job_match` analysis
with `cached: true` and no ML call when one is unexpired; otherwise call
the ML service and cache its result (`expiresAt` left to the schema's
24-hour default). -/
def explainJobMatch (db : DB) (uid jid : Nat) (now : Nat)
    (ml : Except String MLMatchData) : ExplainRes :=
  match db.findUser uid with
  | none =>
    { resp := { status := 404, success := false, hasData := false,
                message := some "User not found" },
      cached := none, dataBlob := none, mlCalled := false, db := db }
  | some user =>
    match db.findJob jid with
    | none =>
      { resp := { status := 404, success := false, hasData := false,
                  message := some "Job not found" },
        cached := none, dataBlob := none, mlCalled := false, db := db }
    | some job =>
      match findNewestAnalysis db (jobMatchCacheMatch uid jid now) with
      | some cachedA =>
        { resp := { status := 200, success := true, hasData := true, message := none },
          cached := some true, dataBlob := some cachedA.results, mlCalled := false, db := db }
      | none =>
        match ml with
        | .error _ =>
          { resp := { status := 500, success := false, hasData := false,
                      message := some "Failed to explain job match" },
            cached := none, dataBlob := none, mlCalled := true, db := db }
        | .ok d =>
          let doc : MLAnalysisDoc :=
            { userId := uid, jobId := some jid, analysisType := "job_match",
              inputResumeText := some (mkResumeText user),
              inputJobDescription := some (mkJobDescription job),
              inputJobSkills := some job.skillsRequired,
              results := d.results, matchScore := d.overallMatchScore,
              atsScore := d.atsScore,
              expiresAt := now + mlAnalysisTTLms, createdAt := now }
          { resp := { status := 200, success := true, hasData := true, message := none },
            cached := some false, dataBlob := some d.results, mlCalled := true,
            db := { db with analyses := db.analyses ++ [doc] } }

/-- `deleteConversation`:
`findOneAndUpdate({ _id: conversationId, userId }, { status: "deleted" })`
— a soft delete touching only the status field; 404 when nothing matches. -/
def deleteConversation (db : DB) (uid cid : Nat) : Resp × DB :=
  match db.conversations.find? (convMatchesIdUser cid uid) with
  | none =>
    ({ status := 404, success := false, hasData := false,
       message := some "Conversation not found" }, db)
  | some _ =>
    ({ status := 200, success := true, hasData := false,
       message := some "Conversation deleted successfully" },
     { db with conversations :=
         (updateFirst (convMatchesIdUser cid uid)
           (fun c => { c with status := "deleted" }) db.conversations) })

/-! ## Response shapes of every chat handler

For the per-handler error envelope claim, each `res.json`/`res.status(..)
.json` literal of `server/controllers/chatController.js` is recorded as a
shape: HTTP status, `success` flag, whether the body carries a `data`
field, the `message` field if any, and whether the response is issued by
the handler's catch block.
-/

/-- One response literal of a chat handler. -/
structure RespShape where
  status : Nat
  success : Bool
  hasData : Bool
  message : Option String
  fromCatch : Bool
deriving Repr, DecidableEq

/-- All response literals of the eight chat handlers of
`server/controllers/chatController.js`, in source order. -/
def chatHandlerResponses : List (String × List RespShape) := [
  ("getOrCreateConversation",
    [⟨200, true, true, none, false⟩,
     ⟨500, false, false, some "Failed to get conversation", true⟩]),
  ("getConversationHistory",
    [⟨404, false, false, some "Conversation not found", false⟩,
     ⟨200, true, true, none, false⟩,
     ⟨500, false, false, some "Failed to get conversation history", true⟩]),
  ("getUserConversations",
    [⟨200, true, true, none, false⟩,
     ⟨500, false, false, some "Failed to get conversations", true⟩]),
  ("sendMessage",
    [⟨400, false, false, some "Message is required", false⟩,
     ⟨200, true, true, none, false⟩,
     ⟨500, false, false, some "Failed to send message", true⟩]),
  ("explainJobMatch",
    [⟨404, false, false, some "User not found", false⟩,
     ⟨404, false, false, some "Job not found", false⟩,
     ⟨200, true, true, none, false⟩,
     ⟨200, true, true, none, false⟩,
     ⟨500, false, false, some "Failed to explain job match", true⟩]),
  ("getCareerPath",
    [⟨404, false, false, some "User not found", false⟩,
     ⟨200, true, true, none, false⟩,
     ⟨200, true, true, none, false⟩,
     ⟨500, false, false, some "Failed to get career path", true⟩]),
  ("calculateATSScore",
    [⟨400, false, false, some "Resume text and job skills are required", false⟩,
     ⟨200, true, true, none, false⟩,
     ⟨500, false, false, some "Failed to calculate ATS score", true⟩]),
  ("deleteConversation",
    [⟨404, false, false, some "Conversation not found", false⟩,
     ⟨200, true, false, some "Conversation deleted successfully", false⟩,
     ⟨500, false, false, some "Failed to delete conversation", true⟩])
]

/-! ## Auth middleware and the chat router

`protectUser` of `server/middleware/authMiddleware.js` (the revision that
sets HTTP statuses) and the router of `server/routes/chatRoutes.js`, which
runs `router.use(protectUser)` before registering any chat route.
-/

/-- `extractBearerToken`: `null` unless the header starts with
`"Bearer "`; otherwise the second `split(" ")` component. -/
def extractBearerToken (h : String) : Option String :=
  if jsStartsWith h "Bearer " then (jsSplitSpace h).get? 1 else none

/-- Outcome of the middleware: an early JSON response, or `next()` with
`req.userId` set. -/
inductive AuthOutcome where
  | reject (status : Nat) (message : String)
  | proceed (userId : Nat)
deriving Repr, DecidableEq

/-- `protectUser`: reject 401 when the bearer token is absent or falsy,
401 with the verifier's error message when `jwt.verify` throws, 404 when
the decoded user does not exist; otherwise proceed. -/
def protectUser (verify : String → Except String Nat) (db : DB)
    (authHeader : Option String) : AuthOutcome :=
  match extractBearerToken (authHeader.getD "") with
  | none => .reject 401 "Unauthorized, please login again."
  | some bearer =>
    if bearer == "" then .reject 401 "Unauthorized, please login again."
    else
      match verify bearer with
      | .error m => .reject 401 m
      | .ok uid =>
        match db.findUser uid with
        | none => .reject 404 "User not found."
        | some _ => .proceed uid

/-- The routes `server/routes/chatRoutes.js` registers, all after
`router.use(protectUser)`. -/
def chatRoutes : List (String × String) :=
  [("POST", "/conversation"), ("GET", "/conversations"),
   ("GET", "/conversation/:conversationId"), ("DELETE", "/conversation/:conversationId"),
   ("POST", "/message"), ("POST", "/explain-match"),
   ("POST", "/career-path"), ("POST", "/ats-score")]

/-- Dispatch of one request through the chat router: for a registered
route, `protectUser` runs first and a rejection is answered without ever
invoking the route handler; `none` when the router does not serve the
route. -/
def chatRouterHandle (verify : String → Except String Nat) (db : DB)
    (authHeader : Option String) (route : String × String)
    (handlers : String × String → Nat → DB → Resp × DB) : Option (Resp × DB) :=
  if route ∈ chatRoutes then
    some (match protectUser verify db authHeader with
      | .reject s m =>
        ({ status := s, success := false, hasData := false, message := some m }, db)
      | .proceed uid => handlers route uid db)
  else none

/-! ## `applyForJob` (`server/controllers/userController.js`) -/

/-- `applyForJob`: reject when an application for `(jobId, userId)`
already exists or the job is missing; otherwise create the application. -/
def applyForJob (db : DB) (uid jid : Nat) (now : Nat) : Resp × DB :=
  let isAlreadyApplied :=
    db.applications.filter (fun a => a.jobId == jid && a.userId == uid)
  if 0 < isAlreadyApplied.length then
    ({ status := 200, success := false, hasData := false,
       message := some "Already Applied" }, db)
  else
    match db.findJob jid with
    | none =>
      ({ status := 200, success := false, hasData := false,
         message := some "Not found" }, db)
    | some jobData =>
      ({ status := 200, success := true, hasData := false,
         message := some "Applied Successfully" },
       { db with applications := db.applications ++
           [{ companyId := jobData.companyId, userId := uid, jobId := jid, date := now }] })

/-- Number of stored applications for a `(userId, jobId)` pair. -/
def appCount (db : DB) (uid jid : Nat) : Nat :=
  (db.applications.filter (fun a => a.jobId == jid && a.userId == uid)).length

/-! ## Concrete fixtures (used by witnesses and counterexamples) -/

/-- A stored user. -/
def userFx : UserDoc :=
  { id := 7, name := "Asha", headline := some "Backend dev", about := none,
    resume := some "resume text", workStatus := "fresher", degree := none,
    institute := none, location := none }

/-- A stored job. -/
def jobFx : JobDoc :=
  { id := 3, companyId := 21, title := "Node Engineer", description := "Build APIs",
    skillsRequired := ["node"], keyResponsibilities := ["ship"], location := "Remote",
    category := "Engineering", level := "Mid Level" }

/-- A stored active conversation of user 7. -/
def convFx : ConversationDoc :=
  { id := 3, userId := 7, title := "Career Guidance", convType := "general",
    contextJobId := none, contextJobTitle := none, status := "active",
    lastMessageAt := 500, messageCount := 4, createdAt := 100 }

/-- A stored, unexpired `job_match` analysis for user 7 and job 3. -/
def analysisFx : MLAnalysisDoc :=
  { userId := 7, jobId := some 3, analysisType := "job_match",
    inputResumeText := none, inputJobDescription := none, inputJobSkills := none,
    results := "cached-results", matchScore := some 80, atsScore := some 70,
    expiresAt := 5000, createdAt := 900 }

/-- A stored `career_path` analysis of user 17, recorded against job 1. -/
def cpDocA : MLAnalysisDoc :=
  { userId := 17, jobId := some 1, analysisType := "career_path",
    inputResumeText := none, inputJobDescription := none, inputJobSkills := none,
    results := "A", matchScore := none, atsScore := none,
    expiresAt := 2000, createdAt := 0 }

/-- The same `career_path` analysis recorded against a different job. -/
def cpDocB : MLAnalysisDoc := { cpDocA with jobId := some 2, results := "B" }

/-- A database fixture holding the documents above. -/
def dbFx : DB :=
  { users := [userFx], jobs := [jobFx], conversations := [convFx],
    messages := [], analyses := [analysisFx], applications := [], nextId := 10 }

/-- The empty database. -/
def emptyDB : DB :=
  { users := [], jobs := [], conversations := [], messages := [],
    analyses := [], applications := [], nextId := 1 }

/-- An empty request context. -/
def ctxFx : ChatContext := { ctype := none, jobId := none, jobTitle := none }

/-! # Theorems

Helper lemmas about the embedded operations first, then one theorem per
specification claim (with its witness or counterexample).
-/

/-- Elements not matching `p` survive `updateFirst` unchanged. -/
theorem updateFirst_mem_of_not {α : Type} (p : α → Bool) (f : α → α) :
    ∀ (l : List α) (c : α), c ∈ l → p c = false → c ∈ updateFirst p f l
  | x :: xs, c, hc, hp => by
    rcases List.mem_cons.mp hc with h | h
    · subst h
      simp [updateFirst, hp]
    · by_cases hx : p x = true
      · simpa [updateFirst, hx] using Or.inr h
      · simp only [Bool.not_eq_true] at hx
        simpa [updateFirst, hx] using
          Or.inr (updateFirst_mem_of_not p f xs c h hp)

/-- The first element matching `p` is mapped through `f` by `updateFirst`. -/
theorem updateFirst_mem_first {α : Type} (p : α → Bool) (f : α → α) :
    ∀ (l : List α) (c : α), l.find? p = some c → f c ∈ updateFirst p f l
  | x :: xs, c, h => by
    by_cases hx : p x = true
    · rw [List.find?_cons_of_pos _ hx] at h
      injection h with h
      subst h
      simp [updateFirst, hx]
    · simp only [Bool.not_eq_true] at hx
      rw [List.find?_cons_of_neg _ (by simp [hx])] at h
      simpa [updateFirst, hx] using
        Or.inr (updateFirst_mem_first p f xs c h)

/-- `updateFirst` skips a prefix with no match. -/
theorem updateFirst_append_of_none {α : Type} (p : α → Bool) (f : α → α) :
    ∀ (l l' : List α), (∀ x ∈ l, p x = false) →
      updateFirst p f (l ++ l') = l ++ updateFirst p f l'
  | [], l', _ => rfl
  | x :: xs, l', h => by
    have hx := h x (List.mem_cons_self x xs)
    simp only [List.cons_append, updateFirst, hx]
    simp [updateFirst_append_of_none p f xs l' (fun y hy => h y (List.mem_cons_of_mem x hy))]

/-- The newest-first fold never loses every candidate. -/
theorem pickNewest_aux_some (l : List MLAnalysisDoc) :
    ∀ b : MLAnalysisDoc,
      (l.foldl (fun acc d =>
        match acc with
        | none => some d
        | some b => if b.createdAt < d.createdAt then some d else some b) (some b)).isSome := by
  induction l with
  | nil => intro b; rfl
  | cons x xs ih =>
    intro b
    simp only [List.foldl_cons]
    by_cases h : b.createdAt < x.createdAt <;> simp [h, ih]

/-- `pickNewest` is `none` exactly on the empty list. -/
theorem pickNewest_eq_none (l : List MLAnalysisDoc) :
    pickNewest l = none ↔ l = [] := by
  cases l with
  | nil => simp [pickNewest]
  | cons x xs =>
    simp only [pickNewest, List.foldl_cons]
    constructor
    · intro h
      have := pickNewest_aux_some xs x
      rw [h] at this
      cases this
    · intro h
      cases h

/-- What `pickNewest` returns was in the list. -/
theorem pickNewest_mem :
    ∀ (l : List MLAnalysisDoc) (acc : Option MLAnalysisDoc) (d : MLAnalysisDoc),
      (l.foldl (fun acc d =>
        match acc with
        | none => some d
        | some b => if b.createdAt < d.createdAt then some d else some b) acc) = some d →
      d ∈ l ∨ acc = some d
  | [], acc, d, h => Or.inr h
  | x :: xs, acc, d, h => by
    simp only [List.foldl_cons] at h
    rcases pickNewest_mem xs _ d h with h' | h'
    · exact Or.inl (List.mem_cons_of_mem x h')
    · cases acc with
      | none =>
        simp only at h'
        injection h' with h'
        exact Or.inl (h' ▸ List.mem_cons_self x xs)
      | some b =>
        simp only at h'
        by_cases hlt : b.createdAt < x.createdAt
        · rw [if_pos hlt] at h'
          injection h' with h'
          exact Or.inl (h' ▸ List.mem_cons_self x xs)
        · rw [if_neg hlt] at h'
          exact Or.inr h'

/-- A failed cache lookup means no stored analysis matches the filter. -/
theorem findNewestAnalysis_eq_none (db : DB) (p : MLAnalysisDoc → Bool) :
    findNewestAnalysis db p = none ↔ ∀ d ∈ db.analyses, p d = false := by
  rw [findNewestAnalysis, pickNewest_eq_none, List.filter_eq_nil_iff]
  simp

/-- A successful cache lookup returns a stored analysis matching the filter. -/
theorem findNewestAnalysis_some (db : DB) (p : MLAnalysisDoc → Bool)
    (d : MLAnalysisDoc) (h : findNewestAnalysis db p = some d) :
    d ∈ db.analyses ∧ p d = true := by
  have hm : d ∈ db.analyses.filter p := by
    rcases pickNewest_mem (db.analyses.filter p) none d h with h' | h'
    · exact h'
    · cases h'
  exact ⟨List.mem_of_mem_filter hm, List.of_mem_filter hm⟩

/-- Unfolding: a successful attempt ends the run at once. -/
theorem callMLServiceRun_of_ok (f : Nat → MLResult) (retries attempt : Nat) (r : String)
    (hf : f attempt = .ok r) :
    callMLServiceRun f retries attempt = (.ok r, 1, 0) := by
  rw [callMLServiceRun.eq_def]
  simp [hf]

/-- Unfolding: a failure with no budget left propagates the error. -/
theorem callMLServiceRun_of_error_zero (f : Nat → MLResult) (attempt : Nat) (e : String)
    (hf : f attempt = .error e) :
    callMLServiceRun f 0 attempt = (.error e, 1, 0) := by
  rw [callMLServiceRun.eq_def]
  simp [hf]

/-- Unfolding: a failure with budget left waits 2000 ms and re-issues. -/
theorem callMLServiceRun_of_error_succ (f : Nat → MLResult) (r attempt : Nat) (e : String)
    (hf : f attempt = .error e) :
    callMLServiceRun f (r + 1) attempt =
      ((callMLServiceRun f r (attempt + 1)).1,
       (callMLServiceRun f r (attempt + 1)).2.1 + 1,
       (callMLServiceRun f r (attempt + 1)).2.2 + 2000) := by
  rw [callMLServiceRun.eq_def]
  simp [hf]

/-- Full behaviour of one `callMLService` run: attempt count bounds, the
accumulated 2000 ms delay per retry, and which attempt produced the final
outcome. -/
theorem callMLServiceRun_spec (f : Nat → MLResult) :
    ∀ (retries attempt : Nat),
      (callMLServiceRun f retries attempt).2.1 ≤ retries + 1 ∧
      1 ≤ (callMLServiceRun f retries attempt).2.1 ∧
      (callMLServiceRun f retries attempt).2.2 =
        2000 * ((callMLServiceRun f retries attempt).2.1 - 1) ∧
      (∀ e, (callMLServiceRun f retries attempt).1 = .error e →
        (callMLServiceRun f retries attempt).2.1 = retries + 1 ∧
          f (attempt + retries) = .error e) ∧
      (∀ r, (callMLServiceRun f retries attempt).1 = .ok r →
        f (attempt + ((callMLServiceRun f retries attempt).2.1 - 1)) = .ok r) := by
  intro retries
  induction retries with
  | zero =>
    intro attempt
    cases hf : f attempt with
    | ok v => simp [callMLServiceRun_of_ok f 0 attempt v hf, hf]
    | error e => simp [callMLServiceRun_of_error_zero f attempt e hf, hf]
  | succ r ih =>
    intro attempt
    cases hf : f attempt with
    | ok v => simp [callMLServiceRun_of_ok f (r + 1) attempt v hf, hf]
    | error e =>
      obtain ⟨hle, hone, hdelay, herr, hok⟩ := ih (attempt + 1)
      rw [callMLServiceRun_of_error_succ f r attempt e hf]
      dsimp only
      refine ⟨by omega, by omega, by omega, ?_, ?_⟩
      · intro e' he'
        obtain ⟨hn, hfe⟩ := herr e' he'
        refine ⟨by omega, ?_⟩
        have harith : attempt + (r + 1) = attempt + 1 + r := by omega
        rw [harith]
        exact hfe
      · intro v hv
        have hfv := hok v hv
        have harith : attempt + ((callMLServiceRun f r (attempt + 1)).2.1 + 1 - 1) =
            attempt + 1 + ((callMLServiceRun f r (attempt + 1)).2.1 - 1) := by omega
        rw [harith]
        exact hfv

set_option maxRecDepth 40000 in
/-- The SHA-256 embedding reproduces the FIPS 180 digest of "abc". -/
theorem sha256_reference_vector :
    bytesToHex (sha256 (utf8Bytes "abc")) =
      "ba7816bf8f01cfea414140de5dae2223b00361a396177a9cb410ff61f20015ad" := by
  decide

set_option maxRecDepth 40000 in
/-- The HMAC-SHA256 embedding reproduces the digest Node computes for
key "key" and message "msg". -/
theorem hmacSha256_reference_vector :
    bytesToHex (hmacSha256 (utf8Bytes "key") (utf8Bytes "msg")) =
      "2d93cbc1be167bcb1637a4a23cbff01a7878f0c50ee833954ea5221bb1b8c628" := by
  decide

set_option maxRecDepth 40000 in
/-- `generateSignature` on the fallback shared secret at a concrete
millisecond timestamp produces the digest Node's `crypto` produces. -/
theorem generateSignature_reference_vector :
    generateSignature defaultSharedSecret 1700000000000 =
      ("fb440cdd93fb0ab2de33aa60e098bc6dd9dd22ade1264678b380bb5882bde008",
       "1700000000000") := by
  decide

/-- C1 (amended): the retry wrapper `callMLService(endpoint, payload,
retries = 2)` makes at most three attempts in total — the initial POST
plus at most two retries, each re-issued after a fixed 2000 ms delay —
and only when the final attempt has also failed does the error propagate
to the calling handler (the final error is the last attempt's). -/
theorem C1_callMLService_retry_budget (f : Nat → MLResult) :
    (callMLServiceDefaultRun f).2.1 ≤ 3 ∧
    (callMLServiceDefaultRun f).2.2 = 2000 * ((callMLServiceDefaultRun f).2.1 - 1) ∧
    (∀ e, (callMLServiceDefaultRun f).1 = .error e →
      (callMLServiceDefaultRun f).2.1 = 3 ∧ f 2 = .error e) ∧
    (∀ r, (callMLServiceDefaultRun f).1 = .ok r →
      f ((callMLServiceDefaultRun f).2.1 - 1) = .ok r) := by
  obtain ⟨hle, hone, hdelay, herr, hok⟩ := callMLServiceRun_spec f 2 0
  rw [callMLServiceDefaultRun, mlRetryDefault]
  refine ⟨hle, hdelay, ?_, ?_⟩
  · intro e he
    obtain ⟨hn, hfe⟩ := herr e he
    exact ⟨hn, by simpa using hfe⟩
  · intro r hr
    simpa using hok r hr

/-- C1 witness: the retry-budget theorem evaluated on an always-failing
outbound call: three attempts, 4000 ms of waiting. -/
theorem C1_callMLService_retry_budget_witness :
    (callMLServiceDefaultRun (fun _ => Except.error "down")).2.1 = 3 ∧
    (callMLServiceDefaultRun (fun _ => Except.error "down")).2.2 = 4000 := by
  obtain ⟨-, hdelay, herr, -⟩ :=
    C1_callMLService_retry_budget (fun _ => Except.error "down")
  obtain ⟨hn, -⟩ := herr "down" rfl
  exact ⟨hn, by rw [hdelay, hn]⟩

/-- C1 counterexample: with every attempt failing, the default run makes
three attempts, refuting the claimed bound of two attempts in total. -/
theorem C1_counterexample_three_attempts :
    ¬ ((callMLServiceDefaultRun (fun _ => Except.error "ECONNREFUSED")).2.1 ≤ 2) := by
  decide

/-- C2 (amended): every POST issued through `callMLService` carries an
`X-Timestamp` header holding the current millisecond timestamp string and
an `X-Signature` header holding the hex HMAC-SHA256, keyed with the
shared secret, of exactly that timestamp string; the `wakeML` health-check
GET, by contrast, is sent with no headers at all. -/
theorem C2_callMLService_hmac_headers (baseUrl secret : String) (nowMs : Nat)
    (endpoint : String) :
    (callMLServiceRequest baseUrl secret nowMs endpoint).headers.lookup "X-Timestamp" =
      some (toString nowMs) ∧
    (callMLServiceRequest baseUrl secret nowMs endpoint).headers.lookup "X-Signature" =
      some (bytesToHex (hmacSha256 (utf8Bytes secret) (utf8Bytes (toString nowMs)))) ∧
    (wakeMLRequest baseUrl).headers = [] := by
  refine ⟨?_, ?_, rfl⟩ <;>
    simp [callMLServiceRequest, generateSignature, List.lookup]

/-- C2 counterexample: among the requests one run of the retry-revision
`sendMessage` sends to the ML service, the `wakeML` health-check GET
carries neither `X-Signature` nor `X-Timestamp`, so it is not the case
that both headers are attached to every outbound request to the ML
service. -/
theorem C2_counterexample_wakeML_unsigned :
    ¬ (∀ req ∈ sendMessageOutboundRequests mlServiceDefaultUrl defaultSharedSecret
          1700000000000,
        (req.headers.lookup "X-Signature").isSome = true ∧
        (req.headers.lookup "X-Timestamp").isSome = true) := by
  intro h
  have h1 := h (wakeMLRequest mlServiceDefaultUrl)
    (by simp [sendMessageOutboundRequests])
  simp [wakeMLRequest, List.lookup] at h1

/-- C2 witness: the header theorem at the fallback base URL and secret,
a concrete timestamp and the chat endpoint. -/
theorem C2_callMLService_hmac_headers_witness :
    (callMLServiceRequest mlServiceDefaultUrl defaultSharedSecret 1700000000000
        "/api/ml/chat").headers.lookup "X-Timestamp" =
      some (toString 1700000000000) ∧
    (callMLServiceRequest mlServiceDefaultUrl defaultSharedSecret 1700000000000
        "/api/ml/chat").headers.lookup "X-Signature" =
      some (bytesToHex (hmacSha256 (utf8Bytes defaultSharedSecret)
        (utf8Bytes (toString 1700000000000)))) ∧
    (wakeMLRequest mlServiceDefaultUrl).headers = [] :=
  C2_callMLService_hmac_headers mlServiceDefaultUrl defaultSharedSecret
    1700000000000 "/api/ml/chat"

/-- With unique ids, looking a stored conversation up by its id finds
exactly it. -/
theorem find?_by_id_of_uniq (l : List ConversationDoc) (c0 : ConversationDoc)
    (huniq : ∀ c1 ∈ l, ∀ c2 ∈ l, c1.id = c2.id → c1 = c2)
    (hc0 : c0 ∈ l) : l.find? (fun c => c.id == c0.id) = some c0 := by
  have hsome : (l.find? (fun c => c.id == c0.id)).isSome := by
    rw [List.find?_isSome]
    exact ⟨c0, hc0, by simp⟩
  obtain ⟨c, hc⟩ := Option.isSome_iff_exists.mp hsome
  have hmem := List.mem_of_find?_eq_some hc
  have hp := List.find?_some hc
  have hcc : c = c0 := huniq c hmem c0 hc0 (by simpa using hp)
  rw [hc, hcc]

/-- C3 (amended): in the degrading revision of the controller
(`part_007`), when the ML chat call fails `sendMessage` does not error:
it answers 200 with `success: true`, stores an assistant `ChatMessage`
whose content is the fixed static fallback string, and still updates the
conversation (`lastMessageAt := now` and `messageCount` bumped by 2) —
whereas in `server/controllers/chatController.js` the same failure
produces the 500 `success: false` response of the counterexample. -/
theorem C3_sendMessageFallback_degrades (db : DB) (uid : Nat)
    (conversationId : Option Nat) (message : String) (context : ChatContext)
    (now : Nat) (e : String)
    (hmsg : msgInvalid (some message) = false)
    (huniq : ∀ c1 ∈ db.conversations, ∀ c2 ∈ db.conversations, c1.id = c2.id → c1 = c2)
    (hfresh : ∀ c ∈ db.conversations, c.id < db.nextId) :
    (sendMessageFallback db (some uid) conversationId (some message) context now
        (Except.error e)).resp.status = 200 ∧
    (sendMessageFallback db (some uid) conversationId (some message) context now
        (Except.error e)).resp.success = true ∧
    (∃ am, (sendMessageFallback db (some uid) conversationId (some message) context now
        (Except.error e)).assistantMessage = some am ∧
      am.role = "assistant" ∧ am.content = fallbackContent ∧
      am ∈ (sendMessageFallback db (some uid) conversationId (some message) context now
        (Except.error e)).db.messages) ∧
    (∃ cid, (sendMessageFallback db (some uid) conversationId (some message) context now
        (Except.error e)).conversationId = some cid ∧
      ∃ c ∈ (sendMessageFallback db (some uid) conversationId (some message) context now
        (Except.error e)).db.conversations,
        c.id = cid ∧ c.lastMessageAt = now ∧
        c.messageCount = convMessageCountAt db cid + 2) := by
  cases hfound : db.conversations.find? (convQueryActive conversationId uid) with
  | some c0 =>
    have hc0mem : c0 ∈ db.conversations := List.mem_of_find?_eq_some hfound
    have hfind : db.conversations.find? (fun c => c.id == c0.id) = some c0 :=
      find?_by_id_of_uniq db.conversations c0 huniq hc0mem
    refine ⟨?_, ?_, ?_, ?_⟩
    · simp [sendMessageFallback, hmsg, hfound]
    · simp [sendMessageFallback, hmsg, hfound]
    · simp only [sendMessageFallback, hmsg, hfound, Bool.false_eq_true, if_false]
      refine ⟨_, rfl, rfl, rfl, ?_⟩
      simp
    · simp only [sendMessageFallback, hmsg, hfound, Bool.false_eq_true, if_false]
      refine ⟨c0.id, rfl, ?_⟩
      refine ⟨(fun c =>
          { c with lastMessageAt := now, messageCount := c.messageCount + 2 }) c0,
        updateFirst_mem_first _ _ db.conversations c0 hfind, ?_, ?_, ?_⟩
      · rfl
      · rfl
      · simp only [convMessageCountAt, hfind]
  | none =>
    have hall : ∀ x ∈ db.conversations, (fun c => c.id == db.nextId) x = false := by
      intro x hx
      have := hfresh x hx
      simp only [beq_eq_false_iff_ne, ne_eq]
      omega
    have hnone : db.conversations.find? (fun c => c.id == db.nextId) = none :=
      List.find?_eq_none.mpr (by intro x hx; simp [hall x hx])
    refine ⟨?_, ?_, ?_, ?_⟩
    · simp [sendMessageFallback, hmsg, hfound]
    · simp [sendMessageFallback, hmsg, hfound]
    · simp only [sendMessageFallback, hmsg, hfound, Bool.false_eq_true, if_false]
      refine ⟨_, rfl, rfl, rfl, ?_⟩
      simp
    · simp only [sendMessageFallback, hmsg, hfound, Bool.false_eq_true, if_false]
      rw [updateFirst_append_of_none _ _ db.conversations _ hall]
      refine ⟨db.nextId, rfl, ?_⟩
      refine ⟨(fun c : ConversationDoc =>
          { c with lastMessageAt := now, messageCount := c.messageCount + 2 })
          ({ id := db.nextId, userId := uid, title := "New Conversation",
             convType := "general", contextJobId := context.jobId,
             contextJobTitle := context.jobTitle, status := "active",
             lastMessageAt := now, messageCount := 0,
             createdAt := now } : ConversationDoc),
        List.mem_append_right _ ?_, ?_, ?_, ?_⟩
      · simp [updateFirst]
      · rfl
      · rfl
      · simp only [convMessageCountAt, hnone]

/-- C3 witness: the degradation theorem at a concrete database, stored
conversation 3 of user 7, message "hi" and a failing ML call. -/
theorem C3_sendMessageFallback_degrades_witness :
    (sendMessageFallback dbFx (some 7) (some 3) (some "hi") ctxFx 2000
        (Except.error "down")).resp.status = 200 ∧
    (sendMessageFallback dbFx (some 7) (some 3) (some "hi") ctxFx 2000
        (Except.error "down")).resp.success = true := by
  obtain ⟨h1, h2, -, -⟩ := C3_sendMessageFallback_degrades dbFx 7 (some 3) "hi" ctxFx 2000
    "down" (by decide) (by decide) (by decide)
  exact ⟨h1, h2⟩

/-- C3 counterexample: in `server/controllers/chatController.js`, a valid
`sendMessage` request whose ML call fails is answered 500 with
`success: false` — ML unavailability does produce an error response. -/
theorem C3_counterexample_sendMessage_errors_on_ml_failure :
    (sendMessageServer dbFx 7 none (some "hello") ctxFx 1000
        (Except.error "ML service unavailable: connect ECONNREFUSED")).resp.success
      = false ∧
    (sendMessageServer dbFx 7 none (some "hello") ctxFx 1000
        (Except.error "ML service unavailable: connect ECONNREFUSED")).resp.status
      = 500 := by
  decide

/-- C4: with the requesting user and the job both stored, `explainJobMatch`
answers the cached analysis with `cached: true` and no ML call exactly
when an `MLAnalysis` for that user, job and type `"job_match"` with
`expiresAt` strictly in the future exists; otherwise it calls the ML
service and, on success, appends a new `MLAnalysis` whose `expiresAt` is
the schema default of 24 hours after its creation, after which the zero
`expireAfterSeconds` TTL index makes it eligible for removal. -/
theorem C4_explainJobMatch_ttl_cache (db : DB) (uid jid now : Nat)
    (ml : Except String MLMatchData)
    (hu : (db.findUser uid).isSome = true) (hj : (db.findJob jid).isSome = true) :
    ((∃ d ∈ db.analyses, jobMatchCacheMatch uid jid now d = true) →
      (explainJobMatch db uid jid now ml).mlCalled = false ∧
      (explainJobMatch db uid jid now ml).cached = some true ∧
      (explainJobMatch db uid jid now ml).resp.success = true ∧
      (explainJobMatch db uid jid now ml).db = db ∧
      ∃ d ∈ db.analyses, jobMatchCacheMatch uid jid now d = true ∧
        (explainJobMatch db uid jid now ml).dataBlob = some d.results) ∧
    ((¬ ∃ d ∈ db.analyses, jobMatchCacheMatch uid jid now d = true) →
      (explainJobMatch db uid jid now ml).mlCalled = true ∧
      ∀ payload, ml = .ok payload →
        (explainJobMatch db uid jid now ml).cached = some false ∧
        (explainJobMatch db uid jid now ml).resp.success = true ∧
        ∃ doc, (explainJobMatch db uid jid now ml).db.analyses = db.analyses ++ [doc] ∧
          doc.userId = uid ∧ doc.jobId = some jid ∧ doc.analysisType = "job_match" ∧
          doc.createdAt = now ∧ doc.expiresAt = doc.createdAt + mlAnalysisTTLms ∧
          mlAnalysisTTLms = 24 * 60 * 60 * 1000 ∧
          (∀ t, doc.expiresAt ≤ t → mlAnalysisTTLEligible doc t = true)) := by
  obtain ⟨user, huser⟩ := Option.isSome_iff_exists.mp hu
  obtain ⟨job, hjob⟩ := Option.isSome_iff_exists.mp hj
  cases hc : findNewestAnalysis db (jobMatchCacheMatch uid jid now) with
  | some d =>
    obtain ⟨hdmem, hdmatch⟩ := findNewestAnalysis_some db _ d hc
    constructor
    · intro _
      refine ⟨?_, ?_, ?_, ?_, ?_⟩
      · simp [explainJobMatch, huser, hjob, hc]
      · simp [explainJobMatch, huser, hjob, hc]
      · simp [explainJobMatch, huser, hjob, hc]
      · simp [explainJobMatch, huser, hjob, hc]
      · refine ⟨d, hdmem, hdmatch, ?_⟩
        simp [explainJobMatch, huser, hjob, hc]
    · intro habs
      exact absurd ⟨d, hdmem, hdmatch⟩ habs
  | none =>
    constructor
    · intro ⟨d, hdmem, hdmatch⟩
      have := (findNewestAnalysis_eq_none db _).mp hc d hdmem
      rw [hdmatch] at this
      cases this
    · intro _
      refine ⟨?_, ?_⟩
      · cases ml <;> simp [explainJobMatch, huser, hjob, hc]
      · intro p hp
        subst hp
        refine ⟨?_, ?_, ?_⟩
        · simp [explainJobMatch, huser, hjob, hc]
        · simp [explainJobMatch, huser, hjob, hc]
        · simp only [explainJobMatch, huser, hjob, hc]
          refine ⟨_, rfl, rfl, rfl, rfl, rfl, rfl, rfl, ?_⟩
          intro t ht
          simp only [mlAnalysisTTLEligible, mlAnalysisTTLIndexExpireAfterSeconds,
            decide_eq_true_eq] at ht ⊢
          omega

/-- C4 witness: the cache theorem on the fixture database, whose stored
`job_match` analysis for user 7 / job 3 is unexpired at time 1000. -/
theorem C4_explainJobMatch_ttl_cache_witness :
    (explainJobMatch dbFx 7 3 1000 (Except.error "down")).mlCalled = false ∧
    (explainJobMatch dbFx 7 3 1000 (Except.error "down")).cached = some true := by
  have h := (C4_explainJobMatch_ttl_cache dbFx 7 3 1000 (Except.error "down")
      (by decide) (by decide)).1 ⟨analysisFx, by decide, by decide⟩
  exact ⟨h.1, h.2.1⟩

/-- C5 (amended): the `job_match` cache lookup is keyed by user, job and
analysis type (its filter holds exactly of documents agreeing on
`userId`, `jobId` and `analysisType` and not yet expired), but the
`career_path` cache lookup is keyed by user and analysis type only — its
filter never constrains `jobId`, so it is insensitive to the stored
document's `jobId`. -/
theorem C5_cache_query_keying (d : MLAnalysisDoc) (uid jid now : Nat) (o : Option Nat) :
    (jobMatchCacheMatch uid jid now d = true ↔
      d.userId = uid ∧ d.jobId = some jid ∧ d.analysisType = "job_match" ∧
        now < d.expiresAt) ∧
    (careerPathCacheMatch uid now d = true ↔
      d.userId = uid ∧ d.analysisType = "career_path" ∧ now < d.expiresAt) ∧
    careerPathCacheMatch uid now { d with jobId := o } =
      careerPathCacheMatch uid now d := by
  refine ⟨?_, ?_, rfl⟩ <;>
    simp [jobMatchCacheMatch, careerPathCacheMatch, and_assoc]

/-- C5 witness: the keying theorem evaluated at the concrete stored
`career_path` document and a concrete lookup. -/
theorem C5_cache_query_keying_witness :
    careerPathCacheMatch 17 1000 { cpDocA with jobId := none } =
      careerPathCacheMatch 17 1000 cpDocA :=
  (C5_cache_query_keying cpDocA 17 1 1000 none).2.2

/-- C5 counterexample: two stored `career_path` analyses that differ in
`jobId` both satisfy the same `getCareerPath` cache query, so that query
does not filter on `jobId`. -/
theorem C5_counterexample_careerPath_cache_ignores_job :
    careerPathCacheMatch 17 1000 cpDocA = true ∧
    careerPathCacheMatch 17 1000 cpDocB = true ∧
    cpDocA.jobId ≠ cpDocB.jobId := by
  decide

/-- C6: every chat route sits behind `router.use(protectUser)`: when the
Authorization header does not begin with "Bearer " or the extracted token
fails JWT verification, dispatching any registered chat route answers 401
with `success: false`, the database is untouched, and the route handler
is never executed (the outcome is the same whatever the handlers are). -/
theorem C6_chat_routes_require_bearer_jwt (verify : String → Except String Nat)
    (db : DB) (authHeader : Option String) (route : String × String)
    (handlers handlers' : String × String → Nat → DB → Resp × DB)
    (hroute : route ∈ chatRoutes)
    (hbad : (¬ jsStartsWith (authHeader.getD "") "Bearer ") ∨
            (∀ t, extractBearerToken (authHeader.getD "") = some t →
              t = "" ∨ ∃ m, verify t = Except.error m)) :
    (∃ m, chatRouterHandle verify db authHeader route handlers =
      some ({ status := 401, success := false, hasData := false,
              message := some m }, db)) ∧
    chatRouterHandle verify db authHeader route handlers =
      chatRouterHandle verify db authHeader route handlers' := by
  have hrej : ∃ m, protectUser verify db authHeader = .reject 401 m := by
    rw [protectUser]
    cases hx : extractBearerToken (authHeader.getD "") with
    | none => exact ⟨_, rfl⟩
    | some t =>
      rcases hbad with hb | hb
      · rw [extractBearerToken] at hx
        rw [if_neg hb] at hx
        cases hx
      · by_cases ht : t = ""
        · subst ht
          exact ⟨"Unauthorized, please login again.", by simp⟩
        · rcases hb t hx with rfl | ⟨m, hm⟩
          · exact absurd rfl ht
          · refine ⟨m, ?_⟩
            have htb : (t == "") = false := by simpa using ht
            simp [htb, hm]
  obtain ⟨m, hm⟩ := hrej
  refine ⟨⟨m, ?_⟩, ?_⟩ <;> simp [chatRouterHandle, if_pos hroute, hm]

/-- C6 witness: a request with a non-Bearer Authorization header to
POST /message is answered 401 without the handler running. -/
theorem C6_chat_routes_require_bearer_jwt_witness :
    (∃ m, chatRouterHandle (fun _ => Except.error "invalid signature") dbFx
        (some "Token abc") ("POST", "/message")
        (fun _ _ db => ({ status := 200, success := true, hasData := true,
                          message := none }, db)) =
      some ({ status := 401, success := false, hasData := false,
              message := some m }, dbFx)) :=
  (C6_chat_routes_require_bearer_jwt (fun _ => Except.error "invalid signature") dbFx
    (some "Token abc") ("POST", "/message")
    (fun _ _ db => ({ status := 200, success := true, hasData := true,
                      message := none }, db))
    (fun _ _ db => ({ status := 418, success := false, hasData := false,
                      message := none }, db))
    (by decide) (Or.inl (by decide))).1

/-- C7: `deleteConversation` is a soft delete: messages, analyses, users,
jobs and applications are untouched; conversations not matching the
`(id, user)` query keep their document; a matching conversation (unique
by id) is replaced by the same document with only `status := "deleted"`,
answered with success; and when nothing matches, the handler answers 404
`success: false` and the database is returned unchanged. -/
theorem C7_deleteConversation_soft_delete (db : DB) (uid cid : Nat)
    (huniq : ∀ c1 ∈ db.conversations, ∀ c2 ∈ db.conversations,
      c1.id = c2.id → c1 = c2) :
    ((deleteConversation db uid cid).2.messages = db.messages ∧
     (deleteConversation db uid cid).2.analyses = db.analyses ∧
     (deleteConversation db uid cid).2.users = db.users ∧
     (deleteConversation db uid cid).2.jobs = db.jobs ∧
     (deleteConversation db uid cid).2.applications = db.applications) ∧
    (∀ c ∈ db.conversations, convMatchesIdUser cid uid c = false →
      c ∈ (deleteConversation db uid cid).2.conversations) ∧
    (∀ c ∈ db.conversations, convMatchesIdUser cid uid c = true →
      { c with status := "deleted" } ∈ (deleteConversation db uid cid).2.conversations ∧
      (deleteConversation db uid cid).1 =
        { status := 200, success := true, hasData := false,
          message := some "Conversation deleted successfully" }) ∧
    ((∀ c ∈ db.conversations, convMatchesIdUser cid uid c = false) →
      (deleteConversation db uid cid).1 =
        { status := 404, success := false, hasData := false,
          message := some "Conversation not found" } ∧
      (deleteConversation db uid cid).2 = db) := by
  cases hf : db.conversations.find? (convMatchesIdUser cid uid) with
  | none =>
    refine ⟨⟨?_, ?_, ?_, ?_, ?_⟩, ?_, ?_, ?_⟩
    · simp [deleteConversation, hf]
    · simp [deleteConversation, hf]
    · simp [deleteConversation, hf]
    · simp [deleteConversation, hf]
    · simp [deleteConversation, hf]
    · intro c hc _
      simpa [deleteConversation, hf] using hc
    · intro c hc hmatch
      have := List.find?_eq_none.mp hf c hc
      rw [hmatch] at this
      cases this rfl
    · intro _
      constructor
      · simp [deleteConversation, hf]
      · simp [deleteConversation, hf]
  | some c0 =>
    have hc0mem : c0 ∈ db.conversations := List.mem_of_find?_eq_some hf
    have hc0p : convMatchesIdUser cid uid c0 = true := List.find?_some hf
    refine ⟨⟨?_, ?_, ?_, ?_, ?_⟩, ?_, ?_, ?_⟩
    · simp [deleteConversation, hf]
    · simp [deleteConversation, hf]
    · simp [deleteConversation, hf]
    · simp [deleteConversation, hf]
    · simp [deleteConversation, hf]
    · intro c hc hcf
      simp only [deleteConversation, hf]
      exact updateFirst_mem_of_not _ _ db.conversations c hc hcf
    · intro c hc hmatch
      have hceq : c = c0 := by
        have h1 : c.id = cid ∧ c.userId = uid := by
          simpa [convMatchesIdUser] using hmatch
        have h2 : c0.id = cid ∧ c0.userId = uid := by
          simpa [convMatchesIdUser] using hc0p
        exact huniq c hc c0 hc0mem (by rw [h1.1, h2.1])
      subst hceq
      constructor
      · simp only [deleteConversation, hf]
        exact updateFirst_mem_first _ _ db.conversations c hf
      · simp [deleteConversation, hf]
    · intro hnone
      have := hnone c0 hc0mem
      rw [hc0p] at this
      cases this

/-- C7 witness: soft-deleting conversation 3 of user 7 on the fixture
database keeps its messages and marks the conversation deleted. -/
theorem C7_deleteConversation_soft_delete_witness :
    (deleteConversation dbFx 7 3).2.messages = dbFx.messages ∧
    { convFx with status := "deleted" } ∈ (deleteConversation dbFx 7 3).2.conversations := by
  have h := C7_deleteConversation_soft_delete dbFx 7 3 (by decide)
  exact ⟨h.1.1, (h.2.2.1 convFx (by decide) (by decide)).1⟩

/-- C8 (amended): in every chat handler all failure responses carry
`success: false` with a `message` field, the catch-block response every
handler ends with is a 500 `success: false` with a message (so no
exception escapes a handler uncaught), and every success response is a
200 `success: true` carrying a `data` field — except
`deleteConversation`, whose success response carries a `message` field
instead of `data`. -/
theorem C8_handler_response_envelopes :
    ∀ hr ∈ chatHandlerResponses,
      (∃ r ∈ hr.2, r.fromCatch = true) ∧
      ∀ r ∈ hr.2,
        (r.fromCatch = true → r.status = 500 ∧ r.success = false) ∧
        (r.success = false → r.message.isSome = true) ∧
        (r.success = true → r.status = 200 ∧
          (r.hasData = true ∨
            (hr.1 = "deleteConversation" ∧ r.message.isSome = true))) := by
  decide

/-- C8 witness: the envelope theorem at the `sendMessage` entry. -/
theorem C8_handler_response_envelopes_witness :
    ∃ r ∈ (chatHandlerResponses.getD 3 ("", [])).2, r.fromCatch = true :=
  (C8_handler_response_envelopes (chatHandlerResponses.getD 3 ("", []))
    (by decide)).1

/-- C8 counterexample: `deleteConversation`'s success response carries no
`data` field, refuting "every successful response carries success: true
with a data field". -/
theorem C8_counterexample_delete_success_without_data :
    ¬ (∀ hr ∈ chatHandlerResponses, ∀ r ∈ hr.2,
        r.success = true → r.hasData = true) := by
  decide

/-- C9: `applyForJob` keeps at most one `JobApplication` per
`(userId, jobId)` pair: an existing application is answered
`success: false` "Already Applied" with no write; a missing job is
answered `success: false` with no write; and a new application is
created exactly when the job exists and no application for the pair does. -/
theorem C9_applyForJob_at_most_one_application (db : DB) (uid jid now : Nat)
    (hinv : ∀ u j, appCount db u j ≤ 1) :
    (∀ u j, appCount (applyForJob db uid jid now).2 u j ≤ 1) ∧
    (0 < appCount db uid jid →
      (applyForJob db uid jid now).1.success = false ∧
      (applyForJob db uid jid now).1.message = some "Already Applied" ∧
      (applyForJob db uid jid now).2 = db) ∧
    (appCount db uid jid = 0 → db.findJob jid = none →
      (applyForJob db uid jid now).1.success = false ∧
      (applyForJob db uid jid now).2 = db) ∧
    (appCount db uid jid = 0 → ∀ job, db.findJob jid = some job →
      (applyForJob db uid jid now).2.applications = db.applications ++
        [{ companyId := job.companyId, userId := uid, jobId := jid, date := now }] ∧
      (applyForJob db uid jid now).1.success = true) := by
  by_cases happ : 0 < appCount db uid jid
  · rw [applyForJob]
    rw [if_pos (by simpa [appCount] using happ)]
    refine ⟨fun u j => hinv u j, fun _ => ⟨rfl, rfl, rfl⟩, ?_, ?_⟩
    · intro h0
      omega
    · intro h0
      omega
  · have h0 : appCount db uid jid = 0 := by omega
    rw [applyForJob]
    rw [if_neg (by simpa [appCount] using happ)]
    cases hjob : db.findJob jid with
    | none =>
      refine ⟨fun u j => hinv u j, ?_, fun _ _ => ⟨rfl, rfl⟩, ?_⟩
      · intro hpos
        omega
      · intro _ job hjob'
        exact Option.noConfusion hjob'
    | some job =>
      refine ⟨?_, ?_, ?_, ?_⟩
      · intro u j
        have hsplit : appCount
            { db with applications := db.applications ++
                [{ companyId := job.companyId, userId := uid, jobId := jid, date := now }] }
            u j = appCount db u j +
              (List.filter (fun a => a.jobId == j && a.userId == u)
                [({ companyId := job.companyId, userId := uid, jobId := jid,
                    date := now } : ApplicationDoc)]).length := by
          simp [appCount, List.filter_append]
        rw [hsplit]
        by_cases hu : u = uid
        · by_cases hj2 : j = jid
          · subst hu
            subst hj2
            simp only [List.filter, beq_self_eq_true, Bool.and_self]
            rw [appCount] at h0
            simp [appCount, h0]
          · have : (jid == j) = false := by
              simp [beq_eq_false_iff_ne]
              omega
            simp [List.filter, this]
            exact hinv u j
        · have : (uid == u) = false := by
            simp [beq_eq_false_iff_ne]
            omega
          simp [List.filter, this]
          exact hinv u j
      · intro hpos
        omega
      · intro _ hjob'
        exact Option.noConfusion hjob'
      · intro _ jb hjb
        have hjb' := Option.some.inj hjb
        subst hjb'
        exact ⟨rfl, rfl⟩

/-- C9 witness: on the fixture database (job 3 stored, no applications),
applying creates exactly one matching application and succeeds. -/
theorem C9_applyForJob_at_most_one_application_witness :
    (applyForJob dbFx 7 3 1234).2.applications = dbFx.applications ++
      [{ companyId := jobFx.companyId, userId := 7, jobId := 3, date := 1234 }] ∧
    (applyForJob dbFx 7 3 1234).1.success = true := by
  have h := (C9_applyForJob_at_most_one_application dbFx 7 3 1234
      (by intro u j; simp [appCount, dbFx])).2.2.2
  exact h (by decide) jobFx (by decide)

/-- C10: a `sendMessage` request whose message is absent or whitespace-only
is answered 400 `success: false` before any database write: the database
state is returned unchanged, so no conversation is created, no
`ChatMessage` is stored, and no conversation counters change. -/
theorem C10_sendMessage_rejects_blank_message (db : DB) (uid : Nat)
    (conversationId : Option Nat) (message : Option String) (context : ChatContext)
    (now : Nat) (ml : Except String MLChatData)
    (hblank : message = none ∨ ∃ s, message = some s ∧ jsTrim s = "") :
    (sendMessageServer db uid conversationId message context now ml).resp.status = 400 ∧
    (sendMessageServer db uid conversationId message context now ml).resp.success = false ∧
    (sendMessageServer db uid conversationId message context now ml).db = db := by
  have hinv : msgInvalid message = true := by
    rcases hblank with h | ⟨s, hs, ht⟩
    · subst h
      rfl
    · subst hs
      simp [msgInvalid, ht]
  simp [sendMessageServer, hinv]

/-- C10 witness: a whitespace-only message on the fixture database. -/
theorem C10_sendMessage_rejects_blank_message_witness :
    (sendMessageServer dbFx 7 none (some "   ") ctxFx 1000
        (Except.error "down")).resp.status = 400 ∧
    (sendMessageServer dbFx 7 none (some "   ") ctxFx 1000
        (Except.error "down")).resp.success = false ∧
    (sendMessageServer dbFx 7 none (some "   ") ctxFx 1000
        (Except.error "down")).db = dbFx :=
  C10_sendMessage_rejects_blank_message dbFx 7 none (some "   ") ctxFx 1000
    (Except.error "down") (Or.inr ⟨"   ", rfl, by decide⟩)

end JobMate
